import Mathlib

/-!
Verification development for the NHL player statistics tracker.

The repository is a small web application tracking NHL player statistics
(points, shots on goal) in one relational table (`nhl_players`), with a
remote statistics provider.  Two variants of the provider adapter exist:
a legacy `nhlApi.ts` (namespace `Legacy` below) and a newer revision
(namespace `V2` below).  The refresh orchestrator and repository calls
live in the newer `App.tsx` and are embedded at top level.

Conventions of the shallow embedding:
* JavaScript strings for names/queries are modelled as `List Char`
  (with `jsToLower`, `trimL`, `containsL` for `toLowerCase`, `trim`,
  `includes`); `localeCompare` is modelled as code-point lexicographic
  comparison `lexCompare`.
* `fetch` outcomes are modelled by `Transport`: a thrown network / JSON
  error (`fail`), a non-success HTTP status (`notOk`), or a parsed
  payload (`ok`).  Optional JSON fields are `Option`s; a JavaScript
  `TypeError` thrown by reading a property of `undefined` inside a
  `try` block surfaces as the `catch` result (`none`).
* Timestamps (`new Date().toISOString()`) are modelled as naturals
  ordered like the instants they denote.
* `Array.prototype.sort(cmp)` (stable) is modelled by `List.mergeSort`
  with `le a b := cmp a b ≤ 0`.
-/

namespace NHLStats

/-! ## JavaScript string primitives -/

/-- Model of `String.prototype.toLowerCase` on a code-point list. -/
def jsToLower (s : List Char) : List Char := s.map Char.toLower

/-- Whitespace as trimmed by `String.prototype.trim`. -/
def jsWhitespace (c : Char) : Bool :=
  c == ' ' || c == '\t' || c == '\n' || c == '\r'

/-- Model of `String.prototype.trim`. -/
def trimL (s : List Char) : List Char :=
  ((s.dropWhile jsWhitespace).reverse.dropWhile jsWhitespace).reverse

/-- Model of `String.prototype.startsWith`: `startsWithL needle hay` is
`true` when `needle` is a prefix of `hay`. -/
def startsWithL : List Char → List Char → Bool
  | [], _ => true
  | _ :: _, [] => false
  | n :: ns, h :: hs => n == h && startsWithL ns hs

/-- Model of `String.prototype.includes`: `containsL hay needle` is `true`
when `needle` occurs contiguously inside `hay`. -/
def containsL : List Char → List Char → Bool
  | [], needle => needle.isEmpty
  | h :: t, needle => startsWithL needle (h :: t) || containsL t needle

/-- Model of `String.prototype.localeCompare` as code-point lexicographic
comparison, returning -1, 0 or 1. -/
def lexCompare : List Char → List Char → Int
  | [], [] => 0
  | [], _ :: _ => -1
  | _ :: _, [] => 1
  | a :: as, b :: bs =>
    if a.toNat < b.toNat then -1
    else if b.toNat < a.toNat then 1
    else lexCompare as bs

/-! ## Data model (`supabase.ts` + the `nhl_player_id` migration) -/

/-- Row of the `nhl_players` table: the `NHLPlayer` interface of
`supabase.ts` together with the `nhl_player_id` column added by the
migration (integer, backfilled to the sentinel `0`). -/
structure NHLPlayer where
  id : String
  name : String
  nhl_player_id : Int
  points_games : Int
  points_total_games : Int
  shots_threshold : ℚ
  shots_games : Int
  shots_total_games : Int
  created_at : Nat
  updated_at : Nat
  deriving DecidableEq

/-! ## Season Resolver (`getCurrentNHLSeason`, both variants) -/

/-- Embedding of `getCurrentNHLSeason`, parameterised by the current
date's calendar year (`getFullYear`) and zero-based month (`getMonth`).
Both source variants have the same body. -/
def getCurrentNHLSeason (year : Int) (month : Nat) : String :=
  if month < 8 then toString (year - 1) ++ toString year
  else toString year ++ toString (year + 1)

/-! ## Ratio computations (`PlayerRow.tsx`, both variants) -/

/-- Points Average (Total Points / Total Games) from the newer
`PlayerRow.tsx`. -/
def pointsAverage (player : NHLPlayer) : ℚ :=
  if player.points_total_games > 0 then
    (player.points_games : ℚ) / (player.points_total_games : ℚ)
  else 0

/-- Shots Per Game (Total Shots / Total Games) from the newer
`PlayerRow.tsx`. -/
def shotsPerGame (player : NHLPlayer) : ℚ :=
  if player.shots_total_games > 0 then
    (player.shots_games : ℚ) / (player.shots_total_games : ℚ)
  else 0

/-- Points percentage from the older `PlayerRow.tsx` variant (before
`toFixed` formatting). -/
def pointsPercentage (player : NHLPlayer) : ℚ :=
  if player.points_total_games > 0 then
    (player.points_games : ℚ) / (player.points_total_games : ℚ) * 100
  else 0

/-- Shots percentage from the older `PlayerRow.tsx` variant (before
`toFixed` formatting). -/
def shotsPercentage (player : NHLPlayer) : ℚ :=
  if player.shots_total_games > 0 then
    (player.shots_games : ℚ) / (player.shots_total_games : ℚ) * 100
  else 0

/-! ## Transport model -/

/-- Outcome of one `fetch` round trip inside a `try` block: a thrown
network/JSON error, a response with `response.ok` false, or a parsed
payload. -/
inductive Transport (α : Type) where
  | fail : Transport α
  | notOk (status : Nat) : Transport α
  | ok (data : α) : Transport α

/-- Environment of one function activation performing `fetch` calls: the
queue of responses the network will deliver, and how many calls have been
issued so far. -/
structure NetState (α : Type) where
  queue : List (Transport α)
  calls : Nat

/-- Issue one `fetch`: consume the next queued response (an exhausted
queue behaves as a network error) and count the call. -/
def doFetch {α : Type} (s : NetState α) : Transport α × NetState α :=
  match s.queue with
  | [] => (Transport.fail, ⟨[], s.calls + 1⟩)
  | r :: rs => (r, ⟨rs, s.calls + 1⟩)

/-! ## Stats Fetcher, newer revision (the `nhlApi.ts` copy shipped with
the `nhl_player_id` migration) -/

namespace V2

/-- The `PlayerStatsResult` interface of the newer `nhlApi.ts`. -/
structure PlayerStatsResult where
  playerId : Int
  playerName : String
  pointsGames : Int
  totalGames : Int
  shots : Int
  deriving DecidableEq

/-- One `stat` object of a season split: `games`, `goals`, `assists`,
`shots`, each possibly absent (the source defaults them with `|| 0`). -/
structure SplitStat where
  games : Option Int
  goals : Option Int
  assists : Option Int
  shots : Option Int

/-- One element of `data.stats[0].splits`; its `stat` property may be
absent, in which case reading `.games` from it throws. -/
structure Split where
  stat : Option SplitStat

/-- One element of `data.stats`; its `splits` property may be absent. -/
structure StatsBlock where
  splits : Option (List Split)

/-- Parsed JSON payload of the season-stats endpoint.  `people` models
`data.people`, which the success path reads (`data.people[0].fullName`)
even though the stats endpoint need not supply it; each entry is its
`fullName`. -/
structure StatsPayload where
  stats : Option (List StatsBlock)
  people : Option (List String)

/-- Embedding of the newer `getNHLPlayerStats`, as a function of the
player id and the outcome of its single transport call.  A thrown
`TypeError` (reading a property of `undefined`) is caught by the
enclosing `try` and yields `none`, exactly as a transport error does. -/
def getNHLPlayerStats (playerId : Int) (resp : Transport StatsPayload) :
    Option PlayerStatsResult :=
  match resp with
  | .fail => none
  | .notOk _ => none
  | .ok data =>
    match data.stats with
    | none => some ⟨playerId, "Unknown Player", 0, 0, 0⟩
    | some [] => some ⟨playerId, "Unknown Player", 0, 0, 0⟩
    | some (blk :: _) =>
      match blk.splits with
      | none => some ⟨playerId, "Unknown Player", 0, 0, 0⟩
      | some [] => some ⟨playerId, "Unknown Player", 0, 0, 0⟩
      | some (sp :: _) =>
        match sp.stat with
        | none => none
        | some st =>
          let gamesPlayed := st.games.getD 0
          let goals := st.goals.getD 0
          let assists := st.assists.getD 0
          let shots := st.shots.getD 0
          let totalPoints := goals + assists
          match data.people with
          | some (fullName :: _) =>
            some ⟨playerId, fullName, totalPoints, gamesPlayed, shots⟩
          | _ => none

/-- The absent-season/statistics-block condition of the source
(`!data.stats || data.stats.length === 0 || !data.stats[0].splits ||
data.stats[0].splits.length === 0`). -/
def noSeasonBlock (data : StatsPayload) : Prop :=
  data.stats = none ∨ data.stats = some [] ∨
    ∃ blk rest, data.stats = some (blk :: rest) ∧
      (blk.splits = none ∨ blk.splits = some [])

/-- Instrumented run of the newer `getNHLPlayerStats` against a network
environment: the body issues its single `fetch` and branches on the
response. -/
def getNHLPlayerStatsRun (playerId : Int) (s : NetState StatsPayload) :
    Option PlayerStatsResult × NetState StatsPayload :=
  let step := doFetch s
  (getNHLPlayerStats playerId step.1, step.2)

end V2

/-! ## Stats Fetcher, legacy revision (`nhlApi.ts` of the older app) -/

namespace Legacy

/-- The `PlayerStatsResult` interface of the legacy `nhlApi.ts` (it also
carries a `points` field). -/
structure PlayerStatsResult where
  playerId : Int
  playerName : String
  points : Int
  pointsGames : Int
  totalGames : Int
  shots : Int
  deriving DecidableEq

/-- One season record inside a stat-type block: `season` string plus the
figures, each possibly absent (defaulted with `|| 0` in the source). -/
structure SeasonData where
  season : Option String
  gamesPlayed : Option Int
  points : Option Int
  shots : Option Int

/-- One element of `player.stats`: `s.type?.displayName` (optional
chaining collapses a missing `type` and a missing `displayName` alike)
and the nested season array. -/
structure StatTypeBlock where
  typeDisplayName : Option String
  stats : Option (List SeasonData)

/-- One element of `data.people`. -/
structure PersonRec where
  id : Int
  fullName : String
  stats : Option (List StatTypeBlock)

/-- Parsed JSON payload of the legacy per-player endpoint. -/
structure LegacyPayload where
  people : Option (List PersonRec)

/-- Embedding of the legacy `getNHLPlayerStats` on the numeric-identifier
path, as a function of the player id, the resolved current season and
the outcome of its transport call. -/
def getNHLPlayerStats (playerId : Int) (currentSeason : String)
    (resp : Transport LegacyPayload) : Option PlayerStatsResult :=
  match resp with
  | .fail => none
  | .notOk _ => none
  | .ok data =>
    match data.people with
    | none => none
    | some [] => none
    | some (player :: _) =>
      let stats := player.stats.getD []
      match stats.find?
          (fun s => s.typeDisplayName == some "regularSeasonStatRest") with
      | none => some ⟨player.id, player.fullName, 0, 0, 0, 0⟩
      | some regularSeasonStats =>
        let statsArray := regularSeasonStats.stats.getD []
        match statsArray.find? (fun s => s.season == some currentSeason) with
        | none => some ⟨player.id, player.fullName, 0, 0, 0, 0⟩
        | some seasonData =>
          let games := seasonData.gamesPlayed.getD 0
          let points := seasonData.points.getD 0
          let shots := seasonData.shots.getD 0
          let pointsGames := if points > 0 then games else 0
          some ⟨player.id, player.fullName, points, pointsGames, games, shots⟩

end Legacy

/-! ## Player Repository update and Refresh Orchestrator (newer
`App.tsx`) -/

/-- Caller-supplied fields of a `Partial<NHLPlayer>` update. -/
structure PlayerUpdates where
  name : Option String := none
  nhl_player_id : Option Int := none
  points_games : Option Int := none
  points_total_games : Option Int := none
  shots_threshold : Option ℚ := none
  shots_games : Option Int := none
  shots_total_games : Option Int := none
  updated_at : Option Nat := none

/-- Semantics of the write object `{ ...updates, updated_at: new
Date().toISOString() }`: each supplied field replaces the stored one,
and `updated_at`, spread last, is always the fresh timestamp — even when
the caller supplied its own `updated_at`. -/
def applyPlayerUpdates (row : NHLPlayer) (updates : PlayerUpdates)
    (now : Nat) : NHLPlayer :=
  { row with
    name := updates.name.getD row.name
    nhl_player_id := updates.nhl_player_id.getD row.nhl_player_id
    points_games := updates.points_games.getD row.points_games
    points_total_games := updates.points_total_games.getD row.points_total_games
    shots_threshold := updates.shots_threshold.getD row.shots_threshold
    shots_games := updates.shots_games.getD row.shots_games
    shots_total_games := updates.shots_total_games.getD row.shots_total_games
    updated_at := now }

/-- Embedding of `handleUpdatePlayer`: the table is a map from row id to
row, `writeOk` tells whether the storage layer accepts the write, and a
rejected write leaves the table untouched. -/
def handleUpdatePlayer (id : String) (updates : PlayerUpdates)
    (writeOk : String → Bool) (now : Nat) (store : String → NHLPlayer) :
    String → NHLPlayer :=
  if writeOk id then
    fun rid => if rid = id then applyPlayerUpdates (store rid) updates now
               else store rid
  else store

/-- The update object written by the refresh pass for one fetched
snapshot: total points, games played, total shots, games played, plus the
fresh `updated_at`. -/
def applyStatsUpdate (row : NHLPlayer) (nhlStats : V2.PlayerStatsResult)
    (now : Nat) : NHLPlayer :=
  { row with
    points_games := nhlStats.pointsGames
    points_total_games := nhlStats.totalGames
    shots_games := nhlStats.shots
    shots_total_games := nhlStats.totalGames
    updated_at := now }

/-- Accumulated outcome of a refresh pass: `updatedCount`, the
`failedPlayers` records, and the current state of the table. -/
structure RefreshState where
  updatedCount : Nat
  failedPlayers : List (String × String)
  store : String → NHLPlayer

/-- One iteration of the `for` loop of `handleRefreshStats` (newer
`App.tsx`): skip the sentinel provider identifier, skip a failed fetch,
skip a season with zero games played, otherwise write the snapshot's
figures; a rejected write is recorded as a failure. -/
def refreshStep (fetch : Int → Option V2.PlayerStatsResult)
    (writeOk : String → Bool) (now : Nat) (st : RefreshState)
    (player : NHLPlayer) : RefreshState :=
  if player.nhl_player_id = 0 then
    { st with failedPlayers := st.failedPlayers ++
        [(player.name, "Missing NHL Player ID (Old manual entry)")] }
  else
    match fetch player.nhl_player_id with
    | none =>
      { st with failedPlayers := st.failedPlayers ++
          [(player.name, "Could not fetch stats from NHL API")] }
    | some nhlStats =>
      if nhlStats.totalGames = 0 then
        { st with failedPlayers := st.failedPlayers ++
            [(player.name, "No games played this season")] }
      else if writeOk player.id then
        { st with
          updatedCount := st.updatedCount + 1
          store := fun rid =>
            if rid = player.id then applyStatsUpdate (st.store rid) nhlStats now
            else st.store rid }
      else
        { st with failedPlayers := st.failedPlayers ++
            [(player.name, "Database update failed")] }

/-- Embedding of `handleRefreshStats` (newer `App.tsx`): process the
player list sequentially, starting from zero successes, no failures and
the current table. -/
def handleRefreshStats (players : List NHLPlayer)
    (fetch : Int → Option V2.PlayerStatsResult) (writeOk : String → Bool)
    (now : Nat) (store0 : String → NHLPlayer) : RefreshState :=
  players.foldl (refreshStep fetch writeOk now) ⟨0, [], store0⟩

/-! ## Player Directory Cache and search (`loadAllPlayers`,
`searchNHLPlayers`).  The two source revisions share the cache logic;
the embedded search comparator is the newer one (its tie-break falls
back to `localeCompare`, where the legacy one returned 0). -/

namespace V2

/-- One cached directory entry (`{ id, fullName }`). -/
structure DirectoryEntry where
  id : Int
  fullName : List Char
  deriving DecidableEq

/-- The `NHLApiPlayer` interface (`{ id, name }`). -/
structure NHLApiPlayer where
  id : Int
  name : List Char
  deriving DecidableEq

/-- Outcome of the bulk directory fetch: thrown error, non-success
status, a payload failing the shape check (`!data.people` in the legacy
revision, `!Array.isArray(data)` in the newer one), or the entry list. -/
inductive BulkResult where
  | fail : BulkResult
  | notOk (status : Nat) : BulkResult
  | malformed : BulkResult
  | arr (people : List DirectoryEntry) : BulkResult

/-- The module-level mutable state: the `cachedPlayers` variable and how
many bulk fetches have been issued so far in this process lifetime. -/
structure CacheState where
  cachedPlayers : Option (List DirectoryEntry)
  bulkFetches : Nat
  deriving DecidableEq

/-- One `Map.prototype.set`: an existing key keeps its position and takes
the new value, a new key is appended. -/
def mapInsert (m : List DirectoryEntry) (e : DirectoryEntry) :
    List DirectoryEntry :=
  if m.any (fun x => x.id == e.id) then
    m.map (fun x => if x.id == e.id then e else x)
  else m ++ [e]

/-- `new Map(entries)` keyed by provider id, in iteration order. -/
def buildPlayerMap (entries : List DirectoryEntry) : List DirectoryEntry :=
  entries.foldl mapInsert []

/-- Embedding of `loadAllPlayers` against the response stream `resp`
(indexed by how many bulk fetches happened before): a cached directory is
returned as is; otherwise one bulk fetch is issued, and only a non-empty
well-shaped payload is cached — every failure path returns an empty map
and leaves `cachedPlayers` unset. -/
def loadAllPlayers (resp : Nat → BulkResult) (s : CacheState) :
    List DirectoryEntry × CacheState :=
  match s.cachedPlayers with
  | some m => (m, s)
  | none =>
    match resp s.bulkFetches with
    | .fail => ([], ⟨none, s.bulkFetches + 1⟩)
    | .notOk _ => ([], ⟨none, s.bulkFetches + 1⟩)
    | .malformed => ([], ⟨none, s.bulkFetches + 1⟩)
    | .arr [] => ([], ⟨none, s.bulkFetches + 1⟩)
    | .arr (e :: es) =>
      (buildPlayerMap (e :: es), ⟨some (buildPlayerMap (e :: es)),
        s.bulkFetches + 1⟩)

/-- The sort comparator of the newer `searchNHLPlayers`: exact match
first, then prefix match, then `localeCompare` on the lowercased names
as the alphabetical fallback. -/
def searchCmp (searchLower : List Char) (a b : NHLApiPlayer) : Int :=
  let aNameLower := jsToLower a.name
  let bNameLower := jsToLower b.name
  let aExact := aNameLower == searchLower
  let bExact := bNameLower == searchLower
  if aExact && !bExact then -1
  else if !aExact && bExact then 1
  else
    let aStarts := startsWithL searchLower aNameLower
    let bStarts := startsWithL searchLower bNameLower
    if aStarts && !bStarts then -1
    else if !aStarts && bStarts then 1
    else lexCompare aNameLower bNameLower

/-- Embedding of the newer `searchNHLPlayers` over a given cached
directory: lowercase and trim the query, keep the entries whose
lowercased full name contains it, and sort with `searchCmp` (the stable
`Array.prototype.sort` is modelled by `List.mergeSort` on
`searchCmp ≤ 0`). -/
def searchNHLPlayers (query : List Char)
    (allPlayers : List DirectoryEntry) : List NHLApiPlayer :=
  if allPlayers.length = 0 then []
  else
    let searchLower := trimL (jsToLower query)
    let results := (allPlayers.filter
      (fun p => containsL (jsToLower p.fullName) searchLower)).map
      (fun p => NHLApiPlayer.mk p.id p.fullName)
    results.mergeSort (fun a b => decide (searchCmp searchLower a b ≤ 0))

/-- Stateful search call: load (or reuse) the directory, then run the
pure search body on it. -/
def searchNHLPlayersRun (query : List Char) (resp : Nat → BulkResult)
    (s : CacheState) : List NHLApiPlayer × CacheState :=
  let r := loadAllPlayers resp s
  (searchNHLPlayers query r.1, r.2)

/-- N sequential search calls within one process lifetime. -/
def runSearches (queries : List (List Char)) (resp : Nat → BulkResult)
    (s : CacheState) : CacheState :=
  queries.foldl (fun st q => (searchNHLPlayersRun q resp st).2) s

/-- The ranking tier the comparator realises for one entry: 0 for an
exact case-insensitive match, 1 for a proper prefix match, 2 for any
other entry. -/
def matchTier (searchLower : List Char) (p : NHLApiPlayer) : Nat :=
  if jsToLower p.name == searchLower then 0
  else if startsWithL searchLower (jsToLower p.name) then 1
  else 2

end V2

end NHLStats

namespace NHLStats

/-! # Theorems -/

/-- C3: for every date, `getCurrentNHLSeason` returns the concatenation
"(Y-1)(Y)" of the previous and current calendar year when the zero-based
month index is below 8 (January through August) and "(Y)(Y+1)" otherwise
(September through December), for all years Y.  The function is a pure
Lean `def` of the date components alone, so it has no failure modes. -/
theorem season_resolver_rule (year : Int) (month : Nat) :
    (month < 8 →
      getCurrentNHLSeason year month = toString (year - 1) ++ toString year) ∧
    (8 ≤ month →
      getCurrentNHLSeason year month = toString year ++ toString (year + 1)) := by
  constructor
  · intro h
    simp [getCurrentNHLSeason, h]
  · intro h
    simp [getCurrentNHLSeason, Nat.not_lt.mpr h]

/-- Witness for C3: both branches of the season rule at concrete dates. -/
theorem season_resolver_rule_witness :
    getCurrentNHLSeason 2025 3 = "20242025" ∧
    getCurrentNHLSeason 2025 9 = "20252026" := by
  refine ⟨?_, ?_⟩
  · rw [(season_resolver_rule 2025 3).1 (by decide)]
    decide
  · rw [(season_resolver_rule 2025 9).2 (by decide)]
    decide

/-- C6: the computed points ratio and shots ratio are total: whenever the
corresponding denominator (`points_total_games` or `shots_total_games`)
is 0, the computed average (newer variant) and percentage (older variant)
are exactly 0 — no division is attempted, so no NaN and no division
error can arise. -/
theorem ratio_total_on_zero_denominator (player : NHLPlayer) :
    (player.points_total_games = 0 →
      pointsAverage player = 0 ∧ pointsPercentage player = 0) ∧
    (player.shots_total_games = 0 →
      shotsPerGame player = 0 ∧ shotsPercentage player = 0) := by
  constructor
  · intro h
    simp [pointsAverage, pointsPercentage, h]
  · intro h
    simp [shotsPerGame, shotsPercentage, h]

/-- Witness for C6: a concrete player with both denominators 0 has all
four computed figures equal to 0. -/
theorem ratio_total_on_zero_denominator_witness :
    pointsAverage ⟨"a", "A", 1, 5, 0, 0, 7, 0, 0, 0⟩ = 0 ∧
    shotsPerGame ⟨"a", "A", 1, 5, 0, 0, 7, 0, 0, 0⟩ = 0 := by
  refine ⟨((ratio_total_on_zero_denominator _).1 rfl).1,
          ((ratio_total_on_zero_denominator _).2 rfl).1⟩

/-- C10: in the legacy stats fetcher, for a season record with games
played `g` and points `p`, the returned snapshot's `pointsGames` equals
`g` when `p > 0` and `0` when `p = 0`: it is the full games-played count
gated on having any points (the snapshot's `totalGames` is also `g` and
its `points` is `p`, so `pointsGames` is neither a per-game points count
nor the total points in general). -/
theorem legacy_points_games_gating
    (playerId : Int) (currentSeason : String) (data : Legacy.LegacyPayload)
    (player : Legacy.PersonRec) (rest : List Legacy.PersonRec)
    (regularSeasonStats : Legacy.StatTypeBlock)
    (seasonData : Legacy.SeasonData) (g p : Int)
    (hpeople : data.people = some (player :: rest))
    (hfind1 : (player.stats.getD []).find?
        (fun s => s.typeDisplayName == some "regularSeasonStatRest") =
        some regularSeasonStats)
    (hfind2 : (regularSeasonStats.stats.getD []).find?
        (fun s => s.season == some currentSeason) = some seasonData)
    (hg : seasonData.gamesPlayed = some g)
    (hp : seasonData.points = some p) :
    ∃ r, Legacy.getNHLPlayerStats playerId currentSeason (Transport.ok data) =
        some r ∧
      (0 < p → r.pointsGames = g) ∧ (p = 0 → r.pointsGames = 0) ∧
      r.totalGames = g ∧ r.points = p := by
  refine ⟨⟨player.id, player.fullName, p, if p > 0 then g else 0,
           g, seasonData.shots.getD 0⟩, ?_, ?_, ?_, rfl, rfl⟩
  · simp only [Legacy.getNHLPlayerStats, hpeople, hfind1, hfind2, hg, hp,
      Option.getD_some]
  · intro h
    simp [h]
  · intro h
    simp [h]

/-- Witness for C10: a concrete season record with 12 games and 3 points
yields `pointsGames = 12`, while `points = 3`. -/
theorem legacy_points_games_gating_witness :
    ∃ r, Legacy.getNHLPlayerStats 8 "20252026"
        (Transport.ok ⟨some [⟨8, "G",
          some [⟨some "regularSeasonStatRest",
            some [⟨some "20252026", some 12, some 3, some 30⟩]⟩]⟩]⟩) =
        some r ∧ r.pointsGames = 12 ∧ r.points = 3 := by
  obtain ⟨r, hr, hpos, _, _, hpts⟩ :=
    legacy_points_games_gating 8 "20252026"
      ⟨some [⟨8, "G", some [⟨some "regularSeasonStatRest",
        some [⟨some "20252026", some 12, some 3, some 30⟩]⟩]⟩]⟩
      ⟨8, "G", some [⟨some "regularSeasonStatRest",
        some [⟨some "20252026", some 12, some 3, some 30⟩]⟩]⟩ []
      ⟨some "regularSeasonStatRest",
        some [⟨some "20252026", some 12, some 3, some 30⟩]⟩
      ⟨some "20252026", some 12, some 3, some 30⟩ 12 3
      rfl rfl rfl rfl rfl
  exact ⟨r, hr, hpos (by decide), hpts⟩

/-- C4: in the newer stats fetcher, a response with no matching
season/statistics block yields the zero-filled snapshot (games, points
figure and shots figure all 0) rather than a failure; a transport
failure (network error or non-success status) yields `none`; and every
activation issues exactly one transport call — in particular a failed
call is not retried — and consumes only the first queued response. -/
theorem fetcher_error_handling (playerId : Int) :
    (∀ data : V2.StatsPayload, V2.noSeasonBlock data →
      V2.getNHLPlayerStats playerId (Transport.ok data) =
        some ⟨playerId, "Unknown Player", 0, 0, 0⟩) ∧
    V2.getNHLPlayerStats playerId Transport.fail = none ∧
    (∀ status, V2.getNHLPlayerStats playerId (Transport.notOk status) = none) ∧
    (∀ s : NetState V2.StatsPayload,
      ((V2.getNHLPlayerStatsRun playerId s).2).calls = s.calls + 1) ∧
    (∀ (r : Transport V2.StatsPayload) (rs : List (Transport V2.StatsPayload))
        (n : Nat),
      (V2.getNHLPlayerStatsRun playerId ⟨r :: rs, n⟩).1 =
        V2.getNHLPlayerStats playerId r) := by
  refine ⟨?_, rfl, fun _ => rfl, ?_, fun _ _ _ => rfl⟩
  · intro data h
    rcases h with h | h | ⟨blk, rest, hs, hsp | hsp⟩ <;>
      simp [V2.getNHLPlayerStats, *]
  · intro s
    rcases s with ⟨queue, calls⟩
    cases queue <;> rfl

/-- Witness for C4: a payload with no `stats` field at all yields the
zero-filled snapshot, a network error yields `none`, and a run against an
empty network queue still counts exactly one call. -/
theorem fetcher_error_handling_witness :
    V2.getNHLPlayerStats 7 (Transport.ok ⟨none, none⟩) =
      some ⟨7, "Unknown Player", 0, 0, 0⟩ ∧
    V2.getNHLPlayerStats 7 Transport.fail = none ∧
    ((V2.getNHLPlayerStatsRun 7 ⟨[], 0⟩).2).calls = 1 :=
  ⟨(fetcher_error_handling 7).1 ⟨none, none⟩ (Or.inl rfl),
   (fetcher_error_handling 7).2.1,
   (fetcher_error_handling 7).2.2.2.1 ⟨[], 0⟩⟩

/-- C8: `handleUpdatePlayer` always writes a freshly stamped
`updated_at` alongside the caller-supplied fields (for every update
object, including one supplying no field at all), so after a successful
update the row's `updated_at` equals the current time and hence is at
least its prior value whenever the clock has not run backwards. -/
theorem update_stamps_updated_at
    (id : String) (updates : PlayerUpdates) (writeOk : String → Bool)
    (now : Nat) (store : String → NHLPlayer)
    (hok : writeOk id = true)
    (hclock : (store id).updated_at ≤ now) :
    (handleUpdatePlayer id updates writeOk now store id).updated_at = now ∧
    (store id).updated_at ≤
      (handleUpdatePlayer id updates writeOk now store id).updated_at := by
  have h : (handleUpdatePlayer id updates writeOk now store id).updated_at
      = now := by
    simp [handleUpdatePlayer, hok, applyPlayerUpdates]
  refine ⟨h, ?_⟩
  rw [h]
  exact hclock

/-- Witness for C8: an update supplying no field still advances a row
with prior `updated_at = 3` to the fresh timestamp 5. -/
theorem update_stamps_updated_at_witness :
    (handleUpdatePlayer "r1" {} (fun _ => true) 5
        (fun _ => ⟨"r1", "N", 1, 0, 0, 0, 0, 0, 0, 3⟩) "r1").updated_at = 5 ∧
    (3 : Nat) ≤ (handleUpdatePlayer "r1" {} (fun _ => true) 5
        (fun _ => ⟨"r1", "N", 1, 0, 0, 0, 0, 0, 0, 3⟩) "r1").updated_at :=
  update_stamps_updated_at "r1" {} (fun _ => true) 5
    (fun _ => ⟨"r1", "N", 1, 0, 0, 0, 0, 0, 0, 3⟩) rfl (by decide)

/-! ## Helper lemmas about the refresh loop -/

/-- One refresh iteration never removes an already-recorded failure. -/
theorem refreshStep_failed_mono (fetch : Int → Option V2.PlayerStatsResult)
    (writeOk : String → Bool) (now : Nat) (st : RefreshState)
    (q : NHLPlayer) (x : String × String) (h : x ∈ st.failedPlayers) :
    x ∈ (refreshStep fetch writeOk now st q).failedPlayers := by
  simp only [refreshStep]
  repeat' split
  all_goals first
    | exact List.mem_append_left _ h
    | exact h

/-- A whole refresh pass never removes an already-recorded failure. -/
theorem foldl_refresh_failed_mono (fetch : Int → Option V2.PlayerStatsResult)
    (writeOk : String → Bool) (now : Nat) (players : List NHLPlayer) :
    ∀ (st : RefreshState) (x : String × String), x ∈ st.failedPlayers →
      x ∈ (players.foldl (refreshStep fetch writeOk now) st).failedPlayers := by
  induction players with
  | nil => intro st x h; exact h
  | cons q qs ih =>
    intro st x h
    exact ih _ x (refreshStep_failed_mono fetch writeOk now st q x h)

/-- One refresh iteration leaves the row `i` untouched whenever the
processed player either has a different row id or hits one of the four
skip/failure branches. -/
theorem refreshStep_store_frame (fetch : Int → Option V2.PlayerStatsResult)
    (writeOk : String → Bool) (now : Nat) (st : RefreshState)
    (q : NHLPlayer) (i : String)
    (h : q.id ≠ i ∨ q.nhl_player_id = 0 ∨ fetch q.nhl_player_id = none ∨
      (∃ s, fetch q.nhl_player_id = some s ∧ s.totalGames = 0) ∨
      writeOk q.id = false) :
    (refreshStep fetch writeOk now st q).store i = st.store i := by
  by_cases hid : q.nhl_player_id = 0
  · simp [refreshStep, hid]
  · cases hf : fetch q.nhl_player_id with
    | none => simp [refreshStep, hid, hf]
    | some s =>
      by_cases hz : s.totalGames = 0
      · simp [refreshStep, hid, hf, hz]
      · by_cases hw : writeOk q.id = true
        · have hqi : q.id ≠ i := by
            rcases h with h | h | h | ⟨s', hs', hz'⟩ | h
            · exact h
            · exact absurd h hid
            · rw [hf] at h; cases h
            · rw [hf] at hs'
              cases hs'
              exact absurd hz' hz
            · rw [hw] at h; cases h
          simp [refreshStep, hid, hf, hz, hw, Ne.symm hqi]
        · simp [refreshStep, hid, hf, hz, hw]

/-- A whole refresh pass leaves row `i` untouched when every player of
the list either has a different row id or is skipped. -/
theorem foldl_refresh_store_frame (fetch : Int → Option V2.PlayerStatsResult)
    (writeOk : String → Bool) (now : Nat) (i : String)
    (players : List NHLPlayer)
    (h : ∀ q ∈ players, q.id ≠ i ∨ q.nhl_player_id = 0 ∨
      fetch q.nhl_player_id = none ∨
      (∃ s, fetch q.nhl_player_id = some s ∧ s.totalGames = 0) ∨
      writeOk q.id = false) :
    ∀ st : RefreshState,
      (players.foldl (refreshStep fetch writeOk now) st).store i =
        st.store i := by
  induction players with
  | nil => intro st; rfl
  | cons q qs ih =>
    intro st
    rw [List.foldl_cons,
      ih (fun r hr => h r (List.mem_cons_of_mem q hr)),
      refreshStep_store_frame fetch writeOk now st q i
        (h q (List.mem_cons_self q qs))]

/-- Any row a refresh iteration does rewrite carries the two equal
games-played denominators of the written snapshot. -/
theorem refreshStep_store_cases (fetch : Int → Option V2.PlayerStatsResult)
    (writeOk : String → Bool) (now : Nat) (st : RefreshState)
    (q : NHLPlayer) (i : String) :
    (refreshStep fetch writeOk now st q).store i = st.store i ∨
    ((refreshStep fetch writeOk now st q).store i).points_total_games =
      ((refreshStep fetch writeOk now st q).store i).shots_total_games := by
  by_cases hid : q.nhl_player_id = 0
  · left; simp [refreshStep, hid]
  · cases hf : fetch q.nhl_player_id with
    | none => left; simp [refreshStep, hid, hf]
    | some s =>
      by_cases hz : s.totalGames = 0
      · left; simp [refreshStep, hid, hf, hz]
      · by_cases hw : writeOk q.id = true
        · by_cases hqi : i = q.id
          · right; simp [refreshStep, hid, hf, hz, hw, hqi, applyStatsUpdate]
          · left; simp [refreshStep, hid, hf, hz, hw, hqi]
        · left; simp [refreshStep, hid, hf, hz, hw]

/-- Over a whole refresh pass, every row is either untouched or ends with
equal games-played denominators. -/
theorem foldl_refresh_store_cases (fetch : Int → Option V2.PlayerStatsResult)
    (writeOk : String → Bool) (now : Nat) (players : List NHLPlayer) :
    ∀ (st : RefreshState) (i : String),
      (players.foldl (refreshStep fetch writeOk now) st).store i =
          st.store i ∨
      ((players.foldl (refreshStep fetch writeOk now) st).store i).points_total_games =
        ((players.foldl (refreshStep fetch writeOk now) st).store i).shots_total_games := by
  induction players with
  | nil => intro st i; left; rfl
  | cons q qs ih =>
    intro st i
    rw [List.foldl_cons]
    rcases ih (refreshStep fetch writeOk now st q) i with h | h
    · rcases refreshStep_store_cases fetch writeOk now st q i with h2 | h2
      · left; rw [h, h2]
      · right; rw [h] at *; exact h2
    · right; exact h

/-! ## Claim theorems about the refresh loop -/

/-- C7: when a player's fetch succeeds but reports zero games played, the
pass records the failure reason and performs no storage write for that
player: its stored row is exactly the one it started with (the existing
figures are not overwritten with zeros). -/
theorem refresh_zero_games_frame
    (players : List NHLPlayer) (fetch : Int → Option V2.PlayerStatsResult)
    (writeOk : String → Bool) (now : Nat) (store0 : String → NHLPlayer)
    (p : NHLPlayer) (s : V2.PlayerStatsResult)
    (hmem : p ∈ players)
    (hunique : ∀ q ∈ players, q.id = p.id → q = p)
    (hid : p.nhl_player_id ≠ 0)
    (hfetch : fetch p.nhl_player_id = some s)
    (hzero : s.totalGames = 0) :
    (handleRefreshStats players fetch writeOk now store0).store p.id =
      store0 p.id ∧
    (p.name, "No games played this season") ∈
      (handleRefreshStats players fetch writeOk now store0).failedPlayers := by
  constructor
  · refine foldl_refresh_store_frame fetch writeOk now p.id players ?_ _
    intro q hq
    by_cases hqi : q.id = p.id
    · have := hunique q hq hqi
      subst this
      exact Or.inr (Or.inr (Or.inr (Or.inl ⟨s, hfetch, hzero⟩)))
    · exact Or.inl hqi
  · have key : ∀ (ps : List NHLPlayer) (st : RefreshState), p ∈ ps →
        (p.name, "No games played this season") ∈
          (ps.foldl (refreshStep fetch writeOk now) st).failedPlayers := by
      intro ps
      induction ps with
      | nil => intro st h; cases h
      | cons q qs ih =>
        intro st h
        rcases List.mem_cons.mp h with rfl | h'
        · rw [List.foldl_cons]
          refine foldl_refresh_failed_mono fetch writeOk now qs _ _ ?_
          simp [refreshStep, hid, hfetch, hzero]
        · rw [List.foldl_cons]
          exact ih _ h'
    exact key players _ hmem

/-- Witness for C7: a tracked player whose fetch reports zero games keeps
its stored row unchanged while the failure is recorded. -/
theorem refresh_zero_games_frame_witness :
    (handleRefreshStats [⟨"a", "Alex", 42, 5, 6, 0, 7, 8, 0, 1⟩]
        (fun _ => some ⟨42, "Alex", 0, 0, 0⟩) (fun _ => true) 9
        (fun _ => ⟨"a", "Alex", 42, 5, 6, 0, 7, 8, 0, 1⟩)).store "a" =
      ⟨"a", "Alex", 42, 5, 6, 0, 7, 8, 0, 1⟩ ∧
    ("Alex", "No games played this season") ∈
      (handleRefreshStats [⟨"a", "Alex", 42, 5, 6, 0, 7, 8, 0, 1⟩]
        (fun _ => some ⟨42, "Alex", 0, 0, 0⟩) (fun _ => true) 9
        (fun _ => ⟨"a", "Alex", 42, 5, 6, 0, 7, 8, 0, 1⟩)).failedPlayers :=
  refresh_zero_games_frame [⟨"a", "Alex", 42, 5, 6, 0, 7, 8, 0, 1⟩]
    (fun _ => some ⟨42, "Alex", 0, 0, 0⟩) (fun _ => true) 9
    (fun _ => ⟨"a", "Alex", 42, 5, 6, 0, 7, 8, 0, 1⟩)
    ⟨"a", "Alex", 42, 5, 6, 0, 7, 8, 0, 1⟩ ⟨42, "Alex", 0, 0, 0⟩
    (List.mem_cons_self _ _)
    (by intro q hq _; simpa using hq)
    (by decide) rfl rfl

/-- C9: every row a refresh pass actually rewrites ends with
`points_total_games = shots_total_games` — both denominators are written
from the same fetched `totalGames` value. -/
theorem refresh_equal_denominators
    (players : List NHLPlayer) (fetch : Int → Option V2.PlayerStatsResult)
    (writeOk : String → Bool) (now : Nat) (store0 : String → NHLPlayer)
    (i : String)
    (hchanged :
      (handleRefreshStats players fetch writeOk now store0).store i ≠
        store0 i) :
    ((handleRefreshStats players fetch writeOk now store0).store i).points_total_games =
      ((handleRefreshStats players fetch writeOk now store0).store i).shots_total_games := by
  rcases foldl_refresh_store_cases fetch writeOk now players
    ⟨0, [], store0⟩ i with h | h
  · exact absurd h hchanged
  · exact h

/-- Witness for C9: a successfully refreshed row (whose denominators
started unequal, so the write is visible) ends with both denominators
equal to the fetched games-played count. -/
theorem refresh_equal_denominators_witness :
    ((handleRefreshStats [⟨"a", "Alex", 42, 1, 2, 0, 3, 4, 0, 0⟩]
        (fun _ => some ⟨42, "Alex", 7, 10, 20⟩) (fun _ => true) 9
        (fun _ => ⟨"a", "Alex", 42, 1, 2, 0, 3, 4, 0, 0⟩)).store "a").points_total_games =
      ((handleRefreshStats [⟨"a", "Alex", 42, 1, 2, 0, 3, 4, 0, 0⟩]
        (fun _ => some ⟨42, "Alex", 7, 10, 20⟩) (fun _ => true) 9
        (fun _ => ⟨"a", "Alex", 42, 1, 2, 0, 3, 4, 0, 0⟩)).store "a").shots_total_games := by
  apply refresh_equal_denominators
  intro h
  have h2 := congrArg NHLPlayer.points_total_games h
  simp [handleRefreshStats, refreshStep, applyStatsUpdate] at h2

/-- C1: a three-player pass — one sentinel provider identifier, one fetch
reporting zero games, one successful fetch with ten games whose storage
write succeeds — yields `updatedCount = 1`, exactly the two failure
records with their two distinct reasons, and stores the successful
player's four figures exactly as fetched. -/
theorem refresh_mixed_batch
    (p0 p1 p2 : NHLPlayer) (s1 s2 : V2.PlayerStatsResult)
    (fetch : Int → Option V2.PlayerStatsResult) (writeOk : String → Bool)
    (now : Nat) (store0 : String → NHLPlayer)
    (h0 : p0.nhl_player_id = 0)
    (h1id : p1.nhl_player_id ≠ 0)
    (h2id : p2.nhl_player_id ≠ 0)
    (hf1 : fetch p1.nhl_player_id = some s1)
    (hs1 : s1.totalGames = 0)
    (hf2 : fetch p2.nhl_player_id = some s2)
    (hs2 : s2.totalGames = 10)
    (hw : writeOk p2.id = true) :
    (handleRefreshStats [p0, p1, p2] fetch writeOk now store0).updatedCount
        = 1 ∧
    (handleRefreshStats [p0, p1, p2] fetch writeOk now store0).failedPlayers
        = [(p0.name, "Missing NHL Player ID (Old manual entry)"),
           (p1.name, "No games played this season")] ∧
    "Missing NHL Player ID (Old manual entry)" ≠
      "No games played this season" ∧
    ((handleRefreshStats [p0, p1, p2] fetch writeOk now store0).store
        p2.id).points_games = s2.pointsGames ∧
    ((handleRefreshStats [p0, p1, p2] fetch writeOk now store0).store
        p2.id).points_total_games = s2.totalGames ∧
    ((handleRefreshStats [p0, p1, p2] fetch writeOk now store0).store
        p2.id).shots_games = s2.shots ∧
    ((handleRefreshStats [p0, p1, p2] fetch writeOk now store0).store
        p2.id).shots_total_games = s2.totalGames := by
  have hz2 : ¬ s2.totalGames = 0 := by rw [hs2]; decide
  refine ⟨?_, ?_, by decide, ?_, ?_, ?_, ?_⟩ <;>
    simp [handleRefreshStats, refreshStep, h0, h1id, h2id, hf1, hs1, hf2,
      hz2, hw, applyStatsUpdate]

/-- Witness for C1: a concrete three-player list with the three outcomes
gives one success, the two distinct failure reasons, and an exact copy of
the fetched figures. -/
theorem refresh_mixed_batch_witness :
    (handleRefreshStats
        [⟨"a", "Alpha", 0, 0, 0, 0, 0, 0, 0, 0⟩,
         ⟨"b", "Bravo", 11, 0, 0, 0, 0, 0, 0, 0⟩,
         ⟨"c", "Casey", 22, 0, 0, 0, 0, 0, 0, 0⟩]
        (fun i => if i = 11 then some ⟨11, "Bravo", 0, 0, 0⟩
                  else if i = 22 then some ⟨22, "Casey", 33, 10, 44⟩
                  else none)
        (fun _ => true) 9
        (fun _ => ⟨"z", "Z", 0, 0, 0, 0, 0, 0, 0, 0⟩)).updatedCount = 1 ∧
    (handleRefreshStats
        [⟨"a", "Alpha", 0, 0, 0, 0, 0, 0, 0, 0⟩,
         ⟨"b", "Bravo", 11, 0, 0, 0, 0, 0, 0, 0⟩,
         ⟨"c", "Casey", 22, 0, 0, 0, 0, 0, 0, 0⟩]
        (fun i => if i = 11 then some ⟨11, "Bravo", 0, 0, 0⟩
                  else if i = 22 then some ⟨22, "Casey", 33, 10, 44⟩
                  else none)
        (fun _ => true) 9
        (fun _ => ⟨"z", "Z", 0, 0, 0, 0, 0, 0, 0, 0⟩)).failedPlayers =
      [("Alpha", "Missing NHL Player ID (Old manual entry)"),
       ("Bravo", "No games played this season")] ∧
    ((handleRefreshStats
        [⟨"a", "Alpha", 0, 0, 0, 0, 0, 0, 0, 0⟩,
         ⟨"b", "Bravo", 11, 0, 0, 0, 0, 0, 0, 0⟩,
         ⟨"c", "Casey", 22, 0, 0, 0, 0, 0, 0, 0⟩]
        (fun i => if i = 11 then some ⟨11, "Bravo", 0, 0, 0⟩
                  else if i = 22 then some ⟨22, "Casey", 33, 10, 44⟩
                  else none)
        (fun _ => true) 9
        (fun _ => ⟨"z", "Z", 0, 0, 0, 0, 0, 0, 0, 0⟩)).store "c").points_games
      = 33 := by
  obtain ⟨hc, hfail, _, hpg, _, _, _⟩ :=
    refresh_mixed_batch
      ⟨"a", "Alpha", 0, 0, 0, 0, 0, 0, 0, 0⟩
      ⟨"b", "Bravo", 11, 0, 0, 0, 0, 0, 0, 0⟩
      ⟨"c", "Casey", 22, 0, 0, 0, 0, 0, 0, 0⟩
      ⟨11, "Bravo", 0, 0, 0⟩ ⟨22, "Casey", 33, 10, 44⟩
      (fun i => if i = 11 then some ⟨11, "Bravo", 0, 0, 0⟩
                else if i = 22 then some ⟨22, "Casey", 33, 10, 44⟩
                else none)
      (fun _ => true) 9
      (fun _ => ⟨"z", "Z", 0, 0, 0, 0, 0, 0, 0, 0⟩)
      rfl (by decide) (by decide) (by decide) rfl (by decide) rfl rfl
  exact ⟨hc, hfail, hpg⟩

/-! ## Helper lemmas about the Directory Cache -/

/-- Once the directory is cached, any number of further search calls
leaves the module state exactly as it is — in particular no further bulk
fetch is issued. -/
theorem runSearches_cached (resp : Nat → V2.BulkResult)
    (queries : List (List Char)) :
    ∀ (m : List V2.DirectoryEntry) (n : Nat),
      V2.runSearches queries resp ⟨some m, n⟩ = ⟨some m, n⟩ := by
  induction queries with
  | nil => intro m n; rfl
  | cons q qs ih =>
    intro m n
    rw [V2.runSearches, List.foldl_cons]
    exact ih m n

/-- C5: the Directory Cache issues zero bulk fetches across zero search
calls; exactly one across any number of sequential search calls once the
first bulk fetch succeeds with a non-empty payload; and a failed bulk
fetch (transport failure, non-success status, malformed or empty
payload) is not cached — that call returns an empty result, leaves
`cachedPlayers` unset, and any call on an unset cache issues a (new)
bulk fetch. -/
theorem directory_cache_bulk_fetch_discipline
    (queries : List (List Char)) (resp : Nat → V2.BulkResult)
    (e : V2.DirectoryEntry) (es : List V2.DirectoryEntry) :
    (V2.runSearches [] resp ⟨none, 0⟩).bulkFetches = 0 ∧
    (resp 0 = V2.BulkResult.arr (e :: es) → queries ≠ [] →
      (V2.runSearches queries resp ⟨none, 0⟩).bulkFetches = 1) ∧
    (∀ (q : List Char) (k : Nat),
      (resp k = V2.BulkResult.fail ∨
        (∃ st, resp k = V2.BulkResult.notOk st) ∨
        resp k = V2.BulkResult.malformed ∨
        resp k = V2.BulkResult.arr []) →
      (V2.searchNHLPlayersRun q resp ⟨none, k⟩).1 = [] ∧
      (V2.searchNHLPlayersRun q resp ⟨none, k⟩).2 = ⟨none, k + 1⟩) ∧
    (∀ (q : List Char) (s : V2.CacheState), s.cachedPlayers = none →
      (V2.searchNHLPlayersRun q resp s).2.bulkFetches = s.bulkFetches + 1) := by
  refine ⟨rfl, ?_, ?_, ?_⟩
  · intro h0 hne
    match queries, hne with
    | q :: qs, _ =>
      rw [V2.runSearches, List.foldl_cons]
      have hstep : (V2.searchNHLPlayersRun q resp ⟨none, 0⟩).2 =
          ⟨some (V2.buildPlayerMap (e :: es)), 1⟩ := by
        simp [V2.searchNHLPlayersRun, V2.loadAllPlayers, h0]
      rw [hstep]
      have := runSearches_cached resp qs (V2.buildPlayerMap (e :: es)) 1
      rw [V2.runSearches] at this
      rw [this]
  · intro q k h
    rcases h with h | ⟨st, h⟩ | h | h <;>
      simp [V2.searchNHLPlayersRun, V2.loadAllPlayers, V2.searchNHLPlayers, h]
  · intro q s hs
    rcases s with ⟨c, n⟩
    cases hs
    cases hr : resp n with
    | arr people =>
      cases people <;>
        simp [V2.searchNHLPlayersRun, V2.loadAllPlayers, hr]
    | _ => simp [V2.searchNHLPlayersRun, V2.loadAllPlayers, hr]

/-- Witness for C5: with a directory of one entry delivered on the first
fetch, one search call and then another reuse the single bulk fetch; a
stream of failures instead leaves the cache unset and the second call
fetches again. -/
theorem directory_cache_bulk_fetch_discipline_witness :
    (V2.runSearches [] (fun _ => V2.BulkResult.arr [⟨1, ['a']⟩])
      ⟨none, 0⟩).bulkFetches = 0 ∧
    (V2.runSearches [['a'], ['b']] (fun _ => V2.BulkResult.arr [⟨1, ['a']⟩])
      ⟨none, 0⟩).bulkFetches = 1 ∧
    (V2.searchNHLPlayersRun ['a'] (fun _ => V2.BulkResult.fail)
      ⟨none, 0⟩).1 = [] ∧
    (V2.searchNHLPlayersRun ['a'] (fun _ => V2.BulkResult.fail)
      ⟨none, 1⟩).2.bulkFetches = 2 := by
  obtain ⟨h0, h1, h2, h3⟩ :=
    directory_cache_bulk_fetch_discipline [['a'], ['b']]
      (fun _ => V2.BulkResult.arr [⟨1, ['a']⟩]) ⟨1, ['a']⟩ []
  refine ⟨h0, h1 rfl (by simp), ?_, ?_⟩
  · exact ((directory_cache_bulk_fetch_discipline [] (fun _ => V2.BulkResult.fail)
      ⟨1, ['a']⟩ []).2.2.1 ['a'] 0 (Or.inl rfl)).1
  · exact (directory_cache_bulk_fetch_discipline [] (fun _ => V2.BulkResult.fail)
      ⟨1, ['a']⟩ []).2.2.2 ['a'] ⟨none, 1⟩ rfl

/-! ## Helper lemmas about the search comparator -/

/-- Comparing a code-point list with itself yields 0. -/
theorem lexCompare_self (a : List Char) : lexCompare a a = 0 := by
  induction a with
  | nil => rfl
  | cons c cs ih => simp [lexCompare, ih]

/-- The empty list compares at or below everything. -/
theorem lexCompare_nil_le (c : List Char) : lexCompare [] c ≤ 0 := by
  cases c <;> simp [lexCompare]

/-- Swapping the operands negates the comparison. -/
theorem lexCompare_swap (a : List Char) :
    ∀ b, lexCompare a b = -lexCompare b a := by
  induction a with
  | nil => intro b; cases b <;> simp [lexCompare]
  | cons x xs ih =>
    intro b
    cases b with
    | nil => simp [lexCompare]
    | cons y ys =>
      simp only [lexCompare]
      rcases Nat.lt_trichotomy x.toNat y.toNat with h | h | h
      · simp [h, Nat.lt_asymm h]
      · simp [h, Nat.lt_irrefl, ih ys]
      · simp [h, Nat.lt_asymm h]

/-- Transitivity of the non-positive side of `lexCompare`. -/
theorem lexCompare_le_trans :
    ∀ (a b c : List Char), lexCompare a b ≤ 0 → lexCompare b c ≤ 0 →
      lexCompare a c ≤ 0 := by
  intro a
  induction a with
  | nil => intro b c _ _; exact lexCompare_nil_le c
  | cons x xs ih =>
    intro b c h1 h2
    cases b with
    | nil =>
      simp only [lexCompare] at h1
      omega
    | cons y ys =>
      cases c with
      | nil =>
        simp only [lexCompare] at h2
        omega
      | cons z zs =>
        simp only [lexCompare] at h1 h2 ⊢
        split_ifs at h1 h2 ⊢ <;>
          first
            | omega
            | exact ih ys zs h1 h2

/-- Every list is a prefix of itself. -/
theorem startsWithL_self (s : List Char) : startsWithL s s = true := by
  induction s with
  | nil => rfl
  | cons c cs ih => simp [startsWithL, ih]

/-- Characterisation of the newer search comparator: it is non-positive
exactly when the left entry sits in a strictly earlier tier, or both sit
in the same tier and the left lowercased name is lexicographically at or
below the right one. -/
theorem searchCmp_le_iff (s : List Char) (a b : V2.NHLApiPlayer) :
    V2.searchCmp s a b ≤ 0 ↔
      (V2.matchTier s a < V2.matchTier s b ∨
        (V2.matchTier s a = V2.matchTier s b ∧
          lexCompare (jsToLower a.name) (jsToLower b.name) ≤ 0)) := by
  simp only [V2.searchCmp, V2.matchTier]
  by_cases hae : jsToLower a.name = s
  · by_cases hbe : jsToLower b.name = s
    · simp [hae, hbe, startsWithL_self, lexCompare_self]
    · simp only [hae, beq_self_eq_true, beq_iff_eq, hbe]
      split_ifs <;> simp_all
  · by_cases hbe : jsToLower b.name = s
    · simp only [beq_iff_eq, hae, hbe, beq_self_eq_true]
      split_ifs <;> simp_all
    · by_cases has : startsWithL s (jsToLower a.name) = true
      · by_cases hbs : startsWithL s (jsToLower b.name) = true
        · simp [beq_iff_eq, hae, hbe, has, hbs]
        · simp [beq_iff_eq, hae, hbe, has, hbs]
      · by_cases hbs : startsWithL s (jsToLower b.name) = true
        · simp [beq_iff_eq, hae, hbe, has, hbs]
        · simp [beq_iff_eq, hae, hbe, has, hbs]

/-- The comparator's non-positive side is transitive. -/
theorem searchCmp_le_trans (s : List Char) (a b c : V2.NHLApiPlayer)
    (h1 : V2.searchCmp s a b ≤ 0) (h2 : V2.searchCmp s b c ≤ 0) :
    V2.searchCmp s a c ≤ 0 := by
  rw [searchCmp_le_iff] at h1 h2 ⊢
  rcases h1 with h1 | ⟨h1, h1l⟩ <;> rcases h2 with h2 | ⟨h2, h2l⟩
  · exact Or.inl (h1.trans h2)
  · exact Or.inl (by omega)
  · exact Or.inl (by omega)
  · exact Or.inr ⟨h1.trans h2,
      lexCompare_le_trans (jsToLower a.name) (jsToLower b.name)
        (jsToLower c.name) h1l h2l⟩

/-- The comparator's non-positive side is total. -/
theorem searchCmp_le_total (s : List Char) (a b : V2.NHLApiPlayer) :
    V2.searchCmp s a b ≤ 0 ∨ V2.searchCmp s b a ≤ 0 := by
  rw [searchCmp_le_iff, searchCmp_le_iff]
  rcases Nat.lt_trichotomy (V2.matchTier s a) (V2.matchTier s b) with h | h | h
  · exact Or.inl (Or.inl h)
  · by_cases hl : lexCompare (jsToLower a.name) (jsToLower b.name) ≤ 0
    · exact Or.inl (Or.inr ⟨h, hl⟩)
    · refine Or.inr (Or.inr ⟨h.symm, ?_⟩)
      rw [lexCompare_swap]
      omega
  · exact Or.inr (Or.inl h)

/-- C2: for every query and every cached directory, the newer search
returns exactly (as a permutation, i.e. with multiplicity) the entries
whose lowercased full name contains the lowercased trimmed query, and in
the returned order every pair respects the ranking: an entry never
precedes one of a strictly earlier tier (exact match tier 0, prefix
match tier 1, other substring match tier 2), and two entries of the same
tier appear in case-insensitive alphabetical order. -/
theorem search_matching_and_ranking (query : List Char)
    (allPlayers : List V2.DirectoryEntry) :
    (V2.searchNHLPlayers query allPlayers).Perm
      ((allPlayers.filter (fun p =>
        containsL (jsToLower p.fullName) (trimL (jsToLower query)))).map
        (fun p => V2.NHLApiPlayer.mk p.id p.fullName)) ∧
    (V2.searchNHLPlayers query allPlayers).Pairwise (fun a b =>
      V2.matchTier (trimL (jsToLower query)) a ≤
        V2.matchTier (trimL (jsToLower query)) b ∧
      (V2.matchTier (trimL (jsToLower query)) a =
          V2.matchTier (trimL (jsToLower query)) b →
        lexCompare (jsToLower a.name) (jsToLower b.name) ≤ 0)) := by
  by_cases hemp : allPlayers.length = 0
  · have hnil : allPlayers = [] := List.length_eq_zero.mp hemp
    subst hnil
    simp [V2.searchNHLPlayers]
  · constructor
    · have h1 : V2.searchNHLPlayers query allPlayers =
          ((allPlayers.filter (fun p =>
              containsL (jsToLower p.fullName) (trimL (jsToLower query)))).map
            (fun p => V2.NHLApiPlayer.mk p.id p.fullName)).mergeSort
            (fun a b =>
              decide (V2.searchCmp (trimL (jsToLower query)) a b ≤ 0)) := by
        simp [V2.searchNHLPlayers, hemp]
      rw [h1]
      exact List.mergeSort_perm _ _
    · have h1 : V2.searchNHLPlayers query allPlayers =
          ((allPlayers.filter (fun p =>
              containsL (jsToLower p.fullName) (trimL (jsToLower query)))).map
            (fun p => V2.NHLApiPlayer.mk p.id p.fullName)).mergeSort
            (fun a b =>
              decide (V2.searchCmp (trimL (jsToLower query)) a b ≤ 0)) := by
        simp [V2.searchNHLPlayers, hemp]
      rw [h1]
      refine List.Pairwise.imp ?_ (List.sorted_mergeSort ?_ ?_
        ((allPlayers.filter (fun p =>
            containsL (jsToLower p.fullName) (trimL (jsToLower query)))).map
          (fun p => V2.NHLApiPlayer.mk p.id p.fullName)))
      rotate_left
      · intro a b c hab hbc
        simp only [decide_eq_true_eq] at hab hbc ⊢
        exact searchCmp_le_trans (trimL (jsToLower query)) a b c hab hbc
      · intro a b
        simp only [Bool.or_eq_true, decide_eq_true_eq]
        exact searchCmp_le_total (trimL (jsToLower query)) a b
      intro a b hab
      have hle : V2.searchCmp (trimL (jsToLower query)) a b ≤ 0 := by
        simpa using hab
      rcases (searchCmp_le_iff _ a b).mp hle with h | ⟨h, hl⟩
      · exact ⟨Nat.le_of_lt h, fun he => absurd (he ▸ h) (lt_irrefl _)⟩
      · exact ⟨Nat.le_of_eq h, fun _ => hl⟩

end NHLStats
